import Mathlib

/-!
# Verification of the MNIST training script (`minist.py`)

A shallow embedding of the orchestration logic of the repository's single
source file `minist.py`: the determinism setter (`set_random_seed`), the
per-worker seeding closure (`worker_init_fn`), the startup sequence of
`main` (including the mixed-precision version gate), the two training-epoch
variants (`train_epoch`, `train_mixed_precision`), the evaluation function
(`test`), the data-loader configurations, and the device-resolution logic
of the `__main__` block.

Modelling conventions:
* Python floats are modelled by `ℚ`; the verified properties are the
  structural/algebraic ones (accumulation formulas, bounds, cadence), not
  floating-point rounding.
* Python ints are `ℤ` (or `ℕ` where the source value is a count).
* External collaborators (the network from `nets/simpleNet.py`, the
  optimizer, the gradient scaler) are opaque per the design: a model is an
  abstract parameter blob plus a forward function, and one training step is
  an abstract state transformer producing the loss (and, for the
  mixed-precision variant, the post-update loss scale).
* Statements that Python executes for effect (RNG seeding, logging) are
  modelled by explicit state passing / returned event lists.
* Operations that can raise (`%` by zero, `/` by zero, `.cuda()` without an
  accelerator) return `Except`.
-/

set_option autoImplicit false

namespace Minist

/-! ## Determinism setter (`set_random_seed`, lines 144-150) -/

/-- Process-wide RNG and backend state touched by `set_random_seed`:
the cuDNN backend flags and the four seeded generators (Python `random`,
NumPy, torch CPU, torch CUDA).  `none` means "never seeded". -/
structure RNGState where
  benchmark : Bool
  deterministic : Bool
  pythonSeed : Option ℤ
  numpySeed : Option ℤ
  torchSeed : Option ℤ
  cudaSeed : Option ℤ
  deriving DecidableEq, Repr

/-- Lines 144-150:
`cudnn.benchmark = False; cudnn.deterministic = True; random.seed(n);`
`np.random.seed(n); torch.manual_seed(n); torch.cuda.manual_seed(n)`.
The Python function returns `None`; it is embedded as a state transformer. -/
def set_random_seed (seed_num : ℤ) (s : RNGState) : RNGState :=
  let s := { s with benchmark := false }
  let s := { s with deterministic := true }
  let s := { s with pythonSeed := some seed_num }
  let s := { s with numpySeed := some seed_num }
  let s := { s with torchSeed := some seed_num }
  { s with cudaSeed := some seed_num }

/-- Lines 58-59: the closure `worker_init_fn(worker_id)` captured inside
`main`, which calls `set_random_seed(seed + worker_id)`.  The worker id
handed out by the loader is a natural number. -/
def worker_init_fn (seed : ℤ) (worker_id : ℕ) (s : RNGState) : RNGState :=
  set_random_seed (seed + worker_id) s

/-! ## Data-loader configurations (lines 61-62 and 70) -/

/-- The `DataLoader` keyword arguments that appear in the source.
`drop_last` defaults to `False` when not passed. -/
structure DataLoaderConfig where
  batch_size : ℕ
  shuffle : Bool
  num_workers : ℕ
  pin_memory : Bool
  drop_last : Bool
  deriving DecidableEq, Repr

/-- Lines 61-62: the training loader is built with `shuffle=True,
num_workers=16, pin_memory=True, drop_last=True`. -/
def train_loader_config (batchSize : ℕ) : DataLoaderConfig :=
  { batch_size := batchSize, shuffle := true, num_workers := 16,
    pin_memory := true, drop_last := true }

/-- Line 70: the test loader is built with `shuffle=False, num_workers=16,
pin_memory=True` (and `drop_last` left at its `False` default). -/
def test_loader_config (testBatchSize : ℕ) : DataLoaderConfig :=
  { batch_size := testBatchSize, shuffle := false, num_workers := 16,
    pin_memory := true, drop_last := false }

/-! ## Device resolution (`__main__` block, lines 174-175) and batch moves -/

/-- A compute device. -/
inductive Device where
  | cuda
  | cpu
  deriving DecidableEq, Repr

/-- Raised by CUDA operations on a machine without a CUDA accelerator. -/
inductive DeviceError where
  | noAccelerator
  deriving DecidableEq, Repr

/-- Line 175: `args.device = torch.device('cuda' if torch.cuda.is_available()
else 'cpu')`. -/
def resolveDevice (cudaAvailable : Bool) : Device :=
  if cudaAvailable then Device.cuda else Device.cpu

/-- The `.cuda()` tensor move used verbatim at lines 94, 112 and 128
(`data, target = data.cuda(), target.cuda()`): it targets the CUDA device
unconditionally and raises when no CUDA accelerator is available.  It does
not consult `args.device`. -/
def tensorCuda (cudaAvailable : Bool) : Except DeviceError Device :=
  if cudaAvailable then Except.ok Device.cuda
  else Except.error DeviceError.noAccelerator

/-! ## Startup sequence of `main` (lines 41-89) -/

/-- Version comparison used by the line-45 gate.  `LooseVersion` compares
release versions such as `"1.5.0"` componentwise left to right, shorter
tuples comparing less when they are a proper initial segment. -/
def versionLt : List ℕ → List ℕ → Bool
  | _, [] => false
  | [], _ :: _ => true
  | a :: as, b :: bs =>
    if a < b then true else if b < a then false else versionLt as bs

/-- The observable actions of `main`, in program order. -/
inductive Event where
  | setSeed (seed : ℤ)
  | buildTrainDataset
  | buildTrainLoader
  | buildTestDataset
  | buildTestLoader
  | buildModel
  | buildOptimizer
  | buildScaler
  | trainStep (mixed : Bool) (epoch : ℕ)
  | evalStep (epoch : ℕ)
  deriving DecidableEq, Repr

/-- The configuration fields of `args` that `main` reads before and during
the loop, plus the ambient torch version consulted by the line-45 gate. -/
structure MainConfig where
  seed : ℤ
  use_mixed_precision : Bool
  torchVersion : List ℕ
  epochs : ℕ
  deriving DecidableEq, Repr

/-- Lines 41-89 of `main` as an event trace: seed the RNGs (line 43), then
gate mixed precision on `torch.__version__ >= 1.6.0` (lines 45-48, raising
`ValueError` and producing no further event on failure), then build the
train dataset and loader (51-62), the test dataset and loader (64-70), the
model (72), the optimizer (77), the scaler when mixed precision is on
(79-81), and finally for each epoch `1..epochs` one training step in the
selected variant followed by one evaluation step (83-89). -/
def mainTrace (cfg : MainConfig) : List Event × Except String Unit :=
  let pre := [Event.setSeed cfg.seed]
  if cfg.use_mixed_precision && versionLt cfg.torchVersion [1, 6, 0] then
    (pre, Except.error "ValueError: Mixed precision is using torch.cuda.amp.autocast(), which requires torch >= 1.6.0")
  else
    (pre ++ [Event.buildTrainDataset, Event.buildTrainLoader,
             Event.buildTestDataset, Event.buildTestLoader,
             Event.buildModel, Event.buildOptimizer] ++
       (if cfg.use_mixed_precision then [Event.buildScaler] else []) ++
       (List.range cfg.epochs).flatMap (fun i =>
         [Event.trainStep cfg.use_mixed_precision (i + 1),
          Event.evalStep (i + 1)]),
     Except.ok ())

/-! ## The model (external collaborator `nets/simpleNet.Net`) -/

/-- An abstract PyTorch module, opaque per the design: a parameter blob
`params` of abstract type `P`, the `training` mode flag toggled by
`.train()` / `.eval()`, and a forward function producing one row of class
log-probabilities per input sample.  The forward pass reads the current
mode flag (dropout/batch-norm layers behave differently in the two modes),
so it takes the flag as its first argument. -/
structure Model (P I : Type) where
  params : P
  training : Bool
  forward : Bool → I → List ℚ

/-- `model.eval()` (line 124): sets the `training` flag to `False`.  It does
not touch the parameters and does not change the gradient mode. -/
def Model.eval {P I : Type} (m : Model P I) : Model P I :=
  { m with training := false }

/-! ## Evaluation (`test`, lines 123-142) -/

/-- A batch as yielded by a loader: a list of input samples paired with the
list of their integer class labels. -/
abbrev Batch (I : Type) := List I × List ℕ

/-- Index of the first maximal entry of a row, as returned by
`output.data.max(1, keepdim=True)[1]` (line 133); `torch.max` returns the
index of the first maximal value. -/
def argmaxAux : ℕ → ℕ → ℚ → List ℚ → ℕ
  | best, _, _, [] => best
  | best, i, bv, x :: xs =>
    if bv < x then argmaxAux i (i + 1) x xs else argmaxAux best (i + 1) bv xs

/-- `argmax` of one output row (empty rows do not occur; `0` is a dummy). -/
def argmax : List ℚ → ℕ
  | [] => 0
  | x :: xs => argmaxAux 0 1 x xs

/-- `F.nll_loss(output, target, size_average=False)` (line 131): the sum
over the batch of the negated target-class log-probability,
`Σ_i -output[i][target[i]]`. -/
def nllLossSum (output : List (List ℚ)) (target : List ℕ) : ℚ :=
  ((output.zip target).map (fun p => -(p.1.getD p.2 0))).sum

/-- Number of samples of a batch whose predicted class (row argmax) equals
the label: `pred.eq(target.data.view_as(pred)).cpu().float().sum()`
(line 134), for the rows `output`. -/
def correctInBatch (output : List (List ℚ)) (target : List ℕ) : ℕ :=
  ((output.map argmax).zip target).countP (fun p => p.1 == p.2)

/-- Raised by the divisions at lines 136-137 when the dataset is empty. -/
inductive EvalError where
  | divisionByZero
  deriving DecidableEq, Repr

/-- What `test` produces: the model as left behind by the call, the mean
loss and the accuracy percentage written to the log (line 139-140), and the
accuracy fraction returned to the caller (line 142). -/
structure TestResult (P I : Type) where
  model : Model P I
  loggedLoss : ℚ
  loggedAccuracyPercent : ℚ
  testAccuracy : ℚ

/-- Lines 123-142: `model.eval()`, then one pass over the test loader
accumulating `test_loss += F.nll_loss(output, target, size_average=False)`
and `test_accuracy += pred.eq(target).sum()` per batch, then division of
both accumulators by `len(test_dataset)` (raising `ZeroDivisionError` on an
empty dataset), the log line, and `return test_accuracy`.  The body opens
no `torch.no_grad()` context and performs no backward pass or optimizer
step. -/
def test {P I : Type} (model : Model P I) (test_loader : List (Batch I))
    (testDatasetLen : ℕ) : Except EvalError (TestResult P I) :=
  let m := model.eval
  let acc := test_loader.foldl
    (fun (st : ℚ × ℚ) (b : Batch I) =>
      let output := b.1.map (m.forward m.training)
      (st.1 + nllLossSum output b.2, st.2 + (correctInBatch output b.2 : ℚ)))
    (0, 0)
  if testDatasetLen = 0 then Except.error EvalError.divisionByZero
  else
    let test_loss := acc.1 / (testDatasetLen : ℚ)
    let test_accuracy := acc.2 / (testDatasetLen : ℚ)
    Except.ok { model := m, loggedLoss := test_loss,
                loggedAccuracyPercent := 100 * test_accuracy,
                testAccuracy := test_accuracy }

/-- The gradient-tracking mode in effect at each `output = model(data)`
call of `test` (line 129): the body of `test` opens no `torch.no_grad()`
(or `torch.enable_grad()`) context, so every forward pass over a test batch
runs under the ambient gradient mode `gradEnabled` the caller is in —
torch's default being enabled. -/
def testForwardGradModes {I : Type} (gradEnabled : Bool)
    (test_loader : List (Batch I)) : List Bool :=
  test_loader.map (fun _ => gradEnabled)

/-! ### Flattened reference quantities for the evaluation theorems -/

/-- All (sample, label) pairs of a loader's batches, in order. -/
def allSamples {I : Type} (test_loader : List (Batch I)) : List (I × ℕ) :=
  test_loader.flatMap (fun b => b.1.zip b.2)

/-- The negative-log-likelihood loss summed sample by sample over the whole
test set (the reference value the per-batch accumulation must reach). -/
def summedLoss {P I : Type} (m : Model P I) (test_loader : List (Batch I)) : ℚ :=
  ((allSamples test_loader).map
    (fun p => -((m.forward false p.1).getD p.2 0))).sum

/-- The number of correctly classified samples of the whole test set. -/
def correctCount {P I : Type} (m : Model P I) (test_loader : List (Batch I)) : ℕ :=
  (allSamples test_loader).countP (fun p => argmax (m.forward false p.1) == p.2)

/-! ## Training epochs (`train_mixed_precision` lines 91-107,
`train_epoch` lines 109-121)

The per-batch numerical work — `optimizer.zero_grad()`, the forward pass,
`F.nll_loss`, `backward()`, the optimizer / scaler update — is delegated to
external collaborators; it is embedded as an opaque step function on an
abstract training state `S` that yields the batch's loss value (and, for
the mixed-precision variant, the loss scale reported by
`scaler.get_scale()` after `scaler.update()`).  What the repository itself
contributes, and what is verified, is the loop around it: the enumeration
of the loader, the `batch_idx % args.log_interval == 0` cadence check, and
the content of the emitted log line. -/

/-- One `logging.info('Train Epoch: ...')` line (lines 105-107 / 119-121),
field by field: the epoch number, `batch_idx * len(data)` (items processed
so far), `len(train_dataset)`, `100. * batch_idx / len(train_loader)`, the
current `loss.item()`, and — only in the mixed-precision variant —
`scaler.get_scale()`. -/
structure LogRecord where
  epoch : ℕ
  processed : ℕ
  datasetSize : ℕ
  percentComplete : ℚ
  loss : ℚ
  lossScale : Option ℚ
  deriving DecidableEq, Repr

/-- `batch_idx % args.log_interval` raises `ZeroDivisionError` when the
configured `log_interval` is `0`. -/
inductive TrainError where
  | logIntervalZero
  deriving DecidableEq, Repr

/-- The common loop body of both training variants: for each batch, run the
opaque step (device move, zero_grad, forward, loss, backward, update) and
then evaluate `batch_idx % args.log_interval == 0` — raising on a zero
interval, otherwise emitting the log record exactly when the remainder is
zero.  `numBatches` is `len(train_loader)` and `datasetLen` is
`len(train_dataset)`, both read by the log line. -/
def trainLoop {S I : Type} (epoch : ℕ) (logInterval : ℤ)
    (numBatches datasetLen : ℕ)
    (step : S → Batch I → S × ℚ × Option ℚ) :
    S → ℕ → List (Batch I) → Except TrainError (S × List LogRecord)
  | s, _, [] => Except.ok (s, [])
  | s, i, b :: rest =>
    let r := step s b
    if logInterval = 0 then Except.error TrainError.logIntervalZero
    else
      match trainLoop epoch logInterval numBatches datasetLen step r.1 (i + 1) rest with
      | Except.error e => Except.error e
      | Except.ok (sFin, logs) =>
        if (i : ℤ) % logInterval == 0 then
          Except.ok (sFin,
            { epoch := epoch, processed := i * b.1.length,
              datasetSize := datasetLen,
              percentComplete := 100 * (i : ℚ) / (numBatches : ℚ),
              loss := r.2.1, lossScale := r.2.2 } :: logs)
        else Except.ok (sFin, logs)

/-- The full-precision per-batch work of `train_epoch` (lines 112-117:
device move, `zero_grad`, forward, `F.nll_loss`, `backward()`,
`optimizer.step()`), opaque per the design, yielding the new training state
and the batch's loss; it reports no loss scale. -/
def fullStep {S I : Type} (step : S → Batch I → S × ℚ) :
    S → Batch I → S × ℚ × Option ℚ :=
  fun s b => let r := step s b; (r.1, r.2, none)

/-- The mixed-precision per-batch work of `train_mixed_precision` (lines
94-102: device move, `zero_grad`, autocast forward and loss,
`scaler.scale(loss).backward()`, `scaler.step`, `scaler.update`), opaque
per the design, yielding the new state, the loss, and the
`scaler.get_scale()` value read at line 107. -/
def mixedStep {S I : Type} (step : S → Batch I → S × ℚ × ℚ) :
    S → Batch I → S × ℚ × Option ℚ :=
  fun s b => let r := step s b; (r.1, r.2.1, some r.2.2)

/-- Lines 109-121 (`train_epoch`): the full-precision epoch.  Its step
yields only a loss, and its log line carries no loss scale. -/
def train_epoch {S I : Type} (epoch : ℕ) (logInterval : ℤ) (datasetLen : ℕ)
    (step : S → Batch I → S × ℚ) (s : S) (train_loader : List (Batch I)) :
    Except TrainError (S × List LogRecord) :=
  trainLoop epoch logInterval train_loader.length datasetLen
    (fullStep step) s 0 train_loader

/-- Lines 91-107 (`train_mixed_precision`): the mixed-precision epoch.  Its
step additionally yields `scaler.get_scale()` after the update, and the log
line carries that scale. -/
def train_mixed_precision {S I : Type} (epoch : ℕ) (logInterval : ℤ)
    (datasetLen : ℕ) (step : S → Batch I → S × ℚ × ℚ) (s : S)
    (train_loader : List (Batch I)) :
    Except TrainError (S × List LogRecord) :=
  trainLoop epoch logInterval train_loader.length datasetLen
    (mixedStep step) s 0 train_loader

/-! ### Reference description of an epoch's batches and logs -/

/-- The per-batch observations of an epoch, read off independently of the
logging logic: for each batch, its index, its `len(data)`, and the loss and
optional scale the step produced for it. -/
def batchEntries {S I : Type} (step : S → Batch I → S × ℚ × Option ℚ) :
    S → ℕ → List (Batch I) → List (ℕ × ℕ × ℚ × Option ℚ)
  | _, _, [] => []
  | s, i, b :: rest =>
    let r := step s b
    (i, b.1.length, r.2.1, r.2.2) :: batchEntries step r.1 (i + 1) rest

/-- The training state after the epoch's batches, independent of logging. -/
def finalState {S I : Type} (step : S → Batch I → S × ℚ × Option ℚ)
    (s : S) (train_loader : List (Batch I)) : S :=
  train_loader.foldl (fun s b => (step s b).1) s

/-- The log lines the claim describes: exactly one record per batch whose
index has remainder zero modulo the log interval, carrying the epoch, the
items-processed count `batch_idx * len(data)`, the dataset size, the
percent complete, the batch's loss, and its optional loss scale. -/
def expectedTrainLogs (epoch : ℕ) (logInterval : ℤ)
    (numBatches datasetLen : ℕ)
    (entries : List (ℕ × ℕ × ℚ × Option ℚ)) : List LogRecord :=
  (entries.filter (fun e => (e.1 : ℤ) % logInterval == 0)).map
    (fun e =>
      { epoch := epoch, processed := e.1 * e.2.1, datasetSize := datasetLen,
        percentComplete := 100 * (e.1 : ℚ) / (numBatches : ℚ),
        loss := e.2.2.1, lossScale := e.2.2.2 })

/-! ## Helper lemmas -/

theorem batchEntries_cons {S I : Type} (step : S → Batch I → S × ℚ × Option ℚ)
    (s : S) (i : ℕ) (b : Batch I) (rest : List (Batch I)) :
    batchEntries step s i (b :: rest) =
      (i, b.1.length, (step s b).2.1, (step s b).2.2) ::
        batchEntries step (step s b).1 (i + 1) rest := rfl

theorem trainLoop_ok {S I : Type} (epoch : ℕ) (L : ℤ) (hL : L ≠ 0)
    (numB dlen : ℕ) (step : S → Batch I → S × ℚ × Option ℚ) :
    ∀ (bs : List (Batch I)) (s : S) (i : ℕ),
    trainLoop epoch L numB dlen step s i bs =
      Except.ok (finalState step s bs,
        expectedTrainLogs epoch L numB dlen (batchEntries step s i bs))
  | [], s, i => by
    simp [trainLoop, finalState, batchEntries, expectedTrainLogs]
  | b :: rest, s, i => by
    rw [trainLoop]
    simp only [hL, if_false, ite_false,
      trainLoop_ok epoch L hL numB dlen step rest (step s b).1 (i + 1)]
    rw [batchEntries_cons]
    show (if ((i : ℤ) % L == 0) then _ else _) = _
    by_cases hc : ((i : ℤ) % L == 0)
    · simp only [hc, if_true, expectedTrainLogs, List.filter_cons, hc,
        List.map_cons, finalState, List.foldl_cons]
    · simp only [hc, if_false, expectedTrainLogs, List.filter_cons,
        Bool.false_eq_true, finalState, List.foldl_cons]

theorem summedLoss_cons {P I : Type} (m : Model P I) (b : Batch I)
    (rest : List (Batch I)) :
    summedLoss m (b :: rest) =
      nllLossSum (b.1.map (m.forward false)) b.2 + summedLoss m rest := by
  simp only [summedLoss, allSamples, List.flatMap_cons, List.map_append,
    List.sum_append, nllLossSum]
  congr 1
  rw [List.zip_map_left, List.map_map]
  rfl

theorem correctCount_cons {P I : Type} (m : Model P I) (b : Batch I)
    (rest : List (Batch I)) :
    correctCount m (b :: rest) =
      correctInBatch (b.1.map (m.forward false)) b.2 + correctCount m rest := by
  simp only [correctCount, allSamples, List.flatMap_cons, List.countP_append,
    correctInBatch]
  congr 1
  rw [List.map_map, List.zip_map_left, List.countP_map]
  rfl

theorem test_foldl_eq {P I : Type} (m : Model P I) :
    ∀ (bs : List (Batch I)) (a c : ℚ),
    bs.foldl
      (fun (st : ℚ × ℚ) (b : Batch I) =>
        let output := b.1.map (m.forward false)
        (st.1 + nllLossSum output b.2,
          st.2 + (correctInBatch output b.2 : ℚ)))
      (a, c) = (a + summedLoss m bs, c + (correctCount m bs : ℚ))
  | [], a, c => by
    simp [summedLoss, allSamples, correctCount]
  | b :: rest, a, c => by
    rw [List.foldl_cons, test_foldl_eq m rest, summedLoss_cons,
      correctCount_cons]
    simp only [Prod.mk.injEq]
    constructor <;> push_cast <;> ring

/-- Evaluating `test` on a nonempty dataset: the returned record in terms
of the flattened reference quantities. -/
theorem test_ok {P I : Type} (m : Model P I) (bs : List (Batch I)) (n : ℕ)
    (hn : n ≠ 0) :
    test m bs n = Except.ok
      { model := m.eval,
        loggedLoss := summedLoss m bs / (n : ℚ),
        loggedAccuracyPercent := 100 * ((correctCount m bs : ℚ) / (n : ℚ)),
        testAccuracy := (correctCount m bs : ℚ) / (n : ℚ) } := by
  have hfold := test_foldl_eq m bs 0 0
  simp only [zero_add] at hfold
  simp only [test, Model.eval, hn, if_false, ite_false]
  rw [show ({ m with training := false } : Model P I).forward
        ({ m with training := false } : Model P I).training
      = m.forward false from rfl]
  rw [hfold]

theorem correctCount_le {P I : Type} (m : Model P I) (bs : List (Batch I)) :
    correctCount m bs ≤ (allSamples bs).length :=
  List.countP_le_length _

theorem allSamples_length {I : Type} (bs : List (Batch I))
    (hEq : ∀ b ∈ bs, b.1.length = b.2.length) :
    (allSamples bs).length = (bs.map (fun b => b.1.length)).sum := by
  induction bs with
  | nil => rfl
  | cons b rest ih =>
    simp only [allSamples, List.flatMap_cons, List.length_append,
      List.map_cons, List.sum_cons] at *
    rw [ih (fun b hb => hEq b (List.mem_cons_of_mem _ hb))]
    rw [List.length_zip, hEq b (List.mem_cons_self _ _), min_self]

theorem batchEntries_fullStep_scale {S I : Type} (step : S → Batch I → S × ℚ) :
    ∀ (bs : List (Batch I)) (s : S) (i : ℕ),
    ∀ e ∈ batchEntries (fullStep step) s i bs, e.2.2.2 = none
  | [], _, _ => by simp [batchEntries]
  | b :: rest, s, i => by
    intro e he
    rw [batchEntries_cons] at he
    rcases List.mem_cons.mp he with h | h
    · subst h; rfl
    · exact batchEntries_fullStep_scale step rest _ _ e h

theorem batchEntries_mixedStep_scale {S I : Type}
    (step : S → Batch I → S × ℚ × ℚ) :
    ∀ (bs : List (Batch I)) (s : S) (i : ℕ),
    ∀ e ∈ batchEntries (mixedStep step) s i bs, ∃ sc, e.2.2.2 = some sc
  | [], _, _ => by simp [batchEntries]
  | b :: rest, s, i => by
    intro e he
    rw [batchEntries_cons] at he
    rcases List.mem_cons.mp he with h | h
    · subst h; exact ⟨(step s b).2.2, rfl⟩
    · exact batchEntries_mixedStep_scale step rest _ _ e h

theorem lossScale_of_mem_expectedTrainLogs (epoch : ℕ) (L : ℤ)
    (numB dlen : ℕ) (entries : List (ℕ × ℕ × ℚ × Option ℚ))
    (r : LogRecord) (hr : r ∈ expectedTrainLogs epoch L numB dlen entries) :
    ∃ e ∈ entries, r.lossScale = e.2.2.2 := by
  unfold expectedTrainLogs at hr
  rcases List.mem_map.mp hr with ⟨e, he, rfl⟩
  exact ⟨e, List.mem_of_mem_filter he, rfl⟩

/-! ## Claim theorems -/

/-- C3: when mixed precision is requested and the torch version is below
the 1.6.0 threshold, `main` fails with a configuration error right after
seeding, before any dataset or loader is constructed, before any batch can
be fetched, and before any training or evaluation step executes. -/
theorem C3_mixed_precision_version_gate (cfg : MainConfig)
    (hm : cfg.use_mixed_precision = true)
    (hv : versionLt cfg.torchVersion [1, 6, 0] = true) :
    (∃ msg, (mainTrace cfg).2 = Except.error msg) ∧
    (mainTrace cfg).1 = [Event.setSeed cfg.seed] ∧
    Event.buildTrainDataset ∉ (mainTrace cfg).1 ∧
    Event.buildTestDataset ∉ (mainTrace cfg).1 ∧
    Event.buildTrainLoader ∉ (mainTrace cfg).1 ∧
    Event.buildTestLoader ∉ (mainTrace cfg).1 ∧
    (∀ mx e, Event.trainStep mx e ∉ (mainTrace cfg).1) ∧
    (∀ e, Event.evalStep e ∉ (mainTrace cfg).1) := by
  simp [mainTrace, hm, hv]

/-- Witness for C3 at the concrete configuration seed 42, mixed precision
on, torch version 1.5.0, 10 epochs: the startup gate fires and the trace
stops at the seeding event. -/
theorem C3_witness :
    (∃ msg, (mainTrace ⟨42, true, [1, 5, 0], 10⟩).2 = Except.error msg) ∧
    (mainTrace ⟨42, true, [1, 5, 0], 10⟩).1 = [Event.setSeed 42] :=
  ⟨(C3_mixed_precision_version_gate ⟨42, true, [1, 5, 0], 10⟩ rfl (by decide)).1,
   (C3_mixed_precision_version_gate ⟨42, true, [1, 5, 0], 10⟩ rfl (by decide)).2.1⟩

/-- C6: the data-loader worker seed is a deterministic function of the
global seed `S` and the worker index `w` alone — the resulting RNG state
does not depend on the state the worker starts from, and every generator is
seeded with `S + w`. -/
theorem C6_worker_seed_deterministic (S : ℤ) (w : ℕ) (s₁ s₂ : RNGState) :
    worker_init_fn S w s₁ = worker_init_fn S w s₂ ∧
    (worker_init_fn S w s₁).pythonSeed = some (S + w) ∧
    (worker_init_fn S w s₁).numpySeed = some (S + w) ∧
    (worker_init_fn S w s₁).torchSeed = some (S + w) ∧
    (worker_init_fn S w s₁).cudaSeed = some (S + w) :=
  ⟨rfl, rfl, rfl, rfl, rfl⟩

/-- C7: `set_random_seed` leaves the process RNG/backend state in the fully
determined configuration: benchmark off, deterministic on, and the Python,
NumPy, torch-CPU and torch-CUDA generators all seeded from the given seed —
independently of the previous state (and it returns nothing else). -/
theorem C7_set_random_seed_contract (n : ℤ) (s : RNGState) :
    set_random_seed n s =
      { benchmark := false, deterministic := true, pythonSeed := some n,
        numpySeed := some n, torchSeed := some n, cudaSeed := some n } :=
  rfl

/-- C9 (code bug): with no CUDA accelerator available, line 175 resolves
the device to CPU, but the per-batch `.cuda()` moves of lines 94, 112 and
128 target CUDA unconditionally and fail instead of using that fallback
device. -/
theorem C9_batch_move_ignores_cpu_fallback :
    resolveDevice false = Device.cpu ∧
    tensorCuda false = Except.error DeviceError.noAccelerator :=
  ⟨rfl, rfl⟩

/-- C1: for every model and test loader over a nonempty dataset, `test`
succeeds and returns a record whose logged mean loss is the sample-wise
summed negative-log-likelihood loss divided by the dataset size, whose
accuracy is the count of samples with argmax prediction equal to the label
divided by the dataset size, whose logged figure is that accuracy as a
percentage, and whose returned plain value is exactly that accuracy
fraction. -/
theorem C1_test_loss_and_accuracy (P I : Type) (m : Model P I)
    (bs : List (Batch I)) (n : ℕ) (h : n ≠ 0) :
    ∃ r : TestResult P I, test m bs n = Except.ok r ∧
      r.loggedLoss = summedLoss m bs / (n : ℚ) ∧
      r.testAccuracy = (correctCount m bs : ℚ) / (n : ℚ) ∧
      r.loggedAccuracyPercent = 100 * r.testAccuracy :=
  ⟨_, test_ok m bs n h, rfl, rfl, rfl⟩

/-- Witness for C1: a one-sample test set, classified correctly by a model
whose rows are `[0, 1]`, under dataset size 1. -/
theorem C1_witness :
    (1 : ℕ) ≠ 0 ∧
    ∃ r : TestResult Unit Unit,
      test ⟨(), true, fun _ _ => [0, 1]⟩ [([()], [1])] 1 = Except.ok r ∧
      r.loggedLoss =
        summedLoss (⟨(), true, fun _ _ => [0, 1]⟩ : Model Unit Unit)
          [([()], [1])] / (1 : ℚ) ∧
      r.testAccuracy =
        (correctCount (⟨(), true, fun _ _ => [0, 1]⟩ : Model Unit Unit)
          [([()], [1])] : ℚ) / (1 : ℚ) ∧
      r.loggedAccuracyPercent = 100 * r.testAccuracy :=
  ⟨one_ne_zero,
   C1_test_loss_and_accuracy Unit Unit ⟨(), true, fun _ _ => [0, 1]⟩
     [([()], [1])] 1 one_ne_zero⟩

/-- C2: the test loader is configured with `shuffle=False`, and evaluation
is read-only on the parameters: `test` hands back a model with the very
same parameters (and forward function), and running `test` again on that
model over the same loader yields the identical accuracy value. -/
theorem C2_test_split_never_shuffled_and_eval_readonly (b : ℕ)
    (P I : Type) (m : Model P I) (bs : List (Batch I)) (n : ℕ) (h : n ≠ 0) :
    (test_loader_config b).shuffle = false ∧
    ∃ r r' : TestResult P I,
      test m bs n = Except.ok r ∧
      r.model.params = m.params ∧
      r.model.forward = m.forward ∧
      test r.model bs n = Except.ok r' ∧
      r'.testAccuracy = r.testAccuracy :=
  ⟨rfl, _, _, test_ok m bs n h, rfl, rfl, test_ok m.eval bs n h, rfl⟩

/-- Witness for C2 at a concrete model, one-batch loader and dataset size 1. -/
theorem C2_witness :
    (test_loader_config 150).shuffle = false ∧
    ∃ r r' : TestResult Unit Unit,
      test ⟨(), true, fun _ _ => [0, 1]⟩ [([()], [0])] 1 = Except.ok r ∧
      r.model.params = () ∧
      r.model.forward = (fun _ _ => [0, 1]) ∧
      test r.model [([()], [0])] 1 = Except.ok r' ∧
      r'.testAccuracy = r.testAccuracy :=
  C2_test_split_never_shuffled_and_eval_readonly 150 Unit Unit
    ⟨(), true, fun _ _ => [0, 1]⟩ [([()], [0])] 1 one_ne_zero

/-- C5 counterexample: with the ambient (torch-default) gradient mode
enabled and a one-batch test loader, the forward pass of `test` runs with
gradient tracking enabled — `test` opens no `torch.no_grad()` context — so
it is not the case that every forward pass over a test batch executes with
gradient tracking disabled. -/
theorem C5_counterexample :
    ¬ (∀ g ∈ testForwardGradModes true [(([()] : List Unit), [0])],
        g = false) := by
  decide

/-- C5 as amended: every forward pass of `test` runs under the caller's
ambient gradient mode (the body disables nothing), rather than with
tracking forced off; nevertheless the Evaluation Step performs no backward
pass or optimizer update while accumulating loss and correct counts — the
returned model has the same parameters and forward function, only its
training flag set to eval. -/
theorem C5_eval_ambient_grad_mode_and_no_param_update (g : Bool)
    (P I : Type) (m : Model P I) (bs : List (Batch I)) (n : ℕ) (h : n ≠ 0) :
    (∀ gm ∈ testForwardGradModes g bs, gm = g) ∧
    ∃ r : TestResult P I, test m bs n = Except.ok r ∧
      r.model.params = m.params ∧
      r.model.forward = m.forward ∧
      r.model.training = false := by
  refine ⟨?_, _, test_ok m bs n h, rfl, rfl, rfl⟩
  intro gm hg
  rcases List.mem_map.mp hg with ⟨_, _, rfl⟩
  rfl

/-- Witness for the amended C5 at gradient mode enabled and a concrete
one-batch evaluation. -/
theorem C5_witness :
    (∀ gm ∈ testForwardGradModes true [(([()] : List Unit), [0])], gm = true) ∧
    ∃ r : TestResult Unit Unit,
      test ⟨(), true, fun _ _ => [0, 1]⟩ [([()], [0])] 1 = Except.ok r ∧
      r.model.params = () ∧
      r.model.forward = (fun _ _ => [0, 1]) ∧
      r.model.training = false :=
  C5_eval_ambient_grad_mode_and_no_param_update true Unit Unit
    ⟨(), true, fun _ _ => [0, 1]⟩ [([()], [0])] 1 one_ne_zero

/-- C8: over any test loader whose batches have matching data/label lengths
and jointly cover the (nonempty) dataset, the accuracy `test` returns lies
in the closed interval `[0, 1]`. -/
theorem C8_accuracy_in_unit_interval (P I : Type) (m : Model P I)
    (bs : List (Batch I)) (n : ℕ) (hn : n ≠ 0)
    (hEq : ∀ b ∈ bs, b.1.length = b.2.length)
    (hsum : (bs.map (fun b => b.1.length)).sum = n) :
    ∃ r : TestResult P I, test m bs n = Except.ok r ∧
      0 ≤ r.testAccuracy ∧ r.testAccuracy ≤ 1 := by
  refine ⟨_, test_ok m bs n hn, ?_, ?_⟩
  · exact div_nonneg (Nat.cast_nonneg _) (Nat.cast_nonneg _)
  · have hpos : (0 : ℚ) < (n : ℚ) := by
      exact_mod_cast Nat.pos_of_ne_zero hn
    rw [div_le_one hpos]
    have hle : correctCount m bs ≤ n := by
      rw [← hsum, ← allSamples_length bs hEq]
      exact correctCount_le m bs
    exact_mod_cast hle

/-- Witness for C8: a two-sample, one-batch test set of size 2. -/
theorem C8_witness :
    ∃ r : TestResult Unit Unit,
      test ⟨(), true, fun _ _ => [0, 1]⟩ [([(), ()], [0, 1])] 2 =
        Except.ok r ∧
      0 ≤ r.testAccuracy ∧ r.testAccuracy ≤ 1 :=
  C8_accuracy_in_unit_interval Unit Unit ⟨(), true, fun _ _ => [0, 1]⟩
    [([(), ()], [0, 1])] 2 (by decide) (by decide) (by decide)

/-- C4: with a nonzero log interval, both epoch variants complete and emit
a progress record exactly for the batches whose index has remainder zero
modulo the interval; each record carries the epoch number, the progress
count `batch_idx * len(data)`, the dataset size, the fraction-complete
percentage `100 * batch_idx / len(train_loader)`, and the batch's loss —
and a loss scale exactly in the mixed-precision variant (full-precision
records carry none). -/
theorem C4_train_log_cadence (S T I J : Type) (epoch : ℕ) (L : ℤ)
    (hL : L ≠ 0) (dlen : ℕ) (step : S → Batch I → S × ℚ) (s : S)
    (bs : List (Batch I)) (epochM dlenM : ℕ)
    (stepM : T → Batch J → T × ℚ × ℚ) (t : T) (bsM : List (Batch J)) :
    train_epoch epoch L dlen step s bs =
      Except.ok (finalState (fullStep step) s bs,
        expectedTrainLogs epoch L bs.length dlen
          (batchEntries (fullStep step) s 0 bs)) ∧
    (∀ r ∈ expectedTrainLogs epoch L bs.length dlen
        (batchEntries (fullStep step) s 0 bs), r.lossScale = none) ∧
    train_mixed_precision epochM L dlenM stepM t bsM =
      Except.ok (finalState (mixedStep stepM) t bsM,
        expectedTrainLogs epochM L bsM.length dlenM
          (batchEntries (mixedStep stepM) t 0 bsM)) ∧
    (∀ r ∈ expectedTrainLogs epochM L bsM.length dlenM
        (batchEntries (mixedStep stepM) t 0 bsM),
      ∃ sc, r.lossScale = some sc) := by
  refine ⟨trainLoop_ok epoch L hL bs.length dlen (fullStep step) bs s 0, ?_,
    trainLoop_ok epochM L hL bsM.length dlenM (mixedStep stepM) bsM t 0, ?_⟩
  · intro r hr
    rcases lossScale_of_mem_expectedTrainLogs _ _ _ _ _ r hr with ⟨e, he, hsc⟩
    rw [hsc]
    exact batchEntries_fullStep_scale step bs s 0 e he
  · intro r hr
    rcases lossScale_of_mem_expectedTrainLogs _ _ _ _ _ r hr with ⟨e, he, hsc⟩
    rw [hsc]
    exact batchEntries_mixedStep_scale stepM bsM t 0 e he

/-- Witness for C4: three batches, log interval 2, constant losses. -/
theorem C4_witness :
    train_epoch 3 2 4 (fun (s : Unit) (_ : Batch Unit) => (s, 5)) ()
        [([()], [0]), ([(), ()], [1]), ([()], [2])] =
      Except.ok
        (finalState (fullStep (fun (s : Unit) (_ : Batch Unit) => (s, 5))) ()
          [([()], [0]), ([(), ()], [1]), ([()], [2])],
         expectedTrainLogs 3 2 3 4
          (batchEntries (fullStep (fun (s : Unit) (_ : Batch Unit) => (s, 5)))
            () 0 [([()], [0]), ([(), ()], [1]), ([()], [2])])) ∧
    train_mixed_precision 3 2 4
        (fun (t : Unit) (_ : Batch Unit) => (t, 5, 8)) ()
        [([()], [0]), ([(), ()], [1]), ([()], [2])] =
      Except.ok
        (finalState (mixedStep (fun (t : Unit) (_ : Batch Unit) => (t, 5, 8)))
          () [([()], [0]), ([(), ()], [1]), ([()], [2])],
         expectedTrainLogs 3 2 3 4
          (batchEntries
            (mixedStep (fun (t : Unit) (_ : Batch Unit) => (t, 5, 8))) () 0
            [([()], [0]), ([(), ()], [1]), ([()], [2])])) := by
  have h := C4_train_log_cadence Unit Unit Unit Unit 3 2 (by decide) 4
    (fun s _ => (s, 5)) () [([()], [0]), ([(), ()], [1]), ([()], [2])] 3 4
    (fun t _ => (t, 5, 8)) () [([()], [0]), ([(), ()], [1]), ([()], [2])]
  exact ⟨h.1, h.2.2.1⟩

/-- C10: the `batch_idx % args.log_interval` check of both training
variants is unguarded: with a zero log interval the first batch raises the
division-by-zero error (for every nonempty loader), an epoch that completed
over a nonempty loader must have had a nonzero interval, and under a
nonzero interval the check is total — both variants always complete. -/
theorem C10_log_interval_zero_guard (S T I J : Type) (epoch dlen dlenM : ℕ)
    (step : S → Batch I → S × ℚ) (s : S)
    (stepM : T → Batch J → T × ℚ × ℚ) (t : T) :
    (∀ (L : ℤ) (bs : List (Batch I)), L = 0 → bs ≠ [] →
      train_epoch epoch L dlen step s bs =
        Except.error TrainError.logIntervalZero) ∧
    (∀ (L : ℤ) (bsM : List (Batch J)), L = 0 → bsM ≠ [] →
      train_mixed_precision epoch L dlenM stepM t bsM =
        Except.error TrainError.logIntervalZero) ∧
    (∀ (L : ℤ) (bs : List (Batch I)) res,
      train_epoch epoch L dlen step s bs = Except.ok res → bs ≠ [] →
        L ≠ 0) ∧
    (∀ (L : ℤ) (bsM : List (Batch J)) res,
      train_mixed_precision epoch L dlenM stepM t bsM = Except.ok res →
        bsM ≠ [] → L ≠ 0) ∧
    (∀ (L : ℤ) (bs : List (Batch I)), L ≠ 0 →
      ∃ res, train_epoch epoch L dlen step s bs = Except.ok res) ∧
    (∀ (L : ℤ) (bsM : List (Batch J)), L ≠ 0 →
      ∃ res, train_mixed_precision epoch L dlenM stepM t bsM =
        Except.ok res) := by
  have herr : ∀ (L : ℤ) (bs : List (Batch I)), L = 0 → bs ≠ [] →
      train_epoch epoch L dlen step s bs =
        Except.error TrainError.logIntervalZero := by
    intro L bs hL hne
    subst hL
    cases bs with
    | nil => exact absurd rfl hne
    | cons b rest => simp [train_epoch, trainLoop]
  have herrM : ∀ (L : ℤ) (bsM : List (Batch J)), L = 0 → bsM ≠ [] →
      train_mixed_precision epoch L dlenM stepM t bsM =
        Except.error TrainError.logIntervalZero := by
    intro L bsM hL hne
    subst hL
    cases bsM with
    | nil => exact absurd rfl hne
    | cons b rest => simp [train_mixed_precision, trainLoop]
  refine ⟨herr, herrM, ?_, ?_, ?_, ?_⟩
  · intro L bs res hok hne hL
    rw [herr L bs hL hne] at hok
    exact Except.noConfusion hok
  · intro L bsM res hok hne hL
    rw [herrM L bsM hL hne] at hok
    exact Except.noConfusion hok
  · intro L bs hL
    exact ⟨_, trainLoop_ok epoch L hL bs.length dlen (fullStep step) bs s 0⟩
  · intro L bsM hL
    exact ⟨_,
      trainLoop_ok epoch L hL bsM.length dlenM (mixedStep stepM) bsM t 0⟩

/-- Witness for C10: with one batch, log interval 0 errors in both
variants and log interval 1 completes in both variants. -/
theorem C10_witness :
    train_epoch 1 0 4 (fun (s : Unit) (_ : Batch Unit) => (s, 5)) ()
        [([()], [0])] = Except.error TrainError.logIntervalZero ∧
    train_mixed_precision 1 0 4 (fun (t : Unit) (_ : Batch Unit) => (t, 5, 8))
        () [([()], [0])] = Except.error TrainError.logIntervalZero ∧
    (∃ res, train_epoch 1 1 4 (fun (s : Unit) (_ : Batch Unit) => (s, 5)) ()
        [([()], [0])] = Except.ok res) ∧
    (∃ res, train_mixed_precision 1 1 4
        (fun (t : Unit) (_ : Batch Unit) => (t, 5, 8)) () [([()], [0])] =
      Except.ok res) := by
  have h := C10_log_interval_zero_guard Unit Unit Unit Unit 1 4 4
    (fun s _ => (s, 5)) () (fun t _ => (t, 5, 8)) ()
  exact ⟨h.1 0 _ rfl (List.cons_ne_nil _ _),
    h.2.1 0 _ rfl (List.cons_ne_nil _ _),
    h.2.2.2.2.1 1 _ (by decide),
    h.2.2.2.2.2 1 _ (by decide)⟩

end Minist
